import Mathlib

/-!
Shallow embedding of the anomaly-detection core of the powergrid-monitor
repository (src/anomaly_detection/detector.py and src/anomaly_detection/engine.py),
together with proofs settling the frozen claims about it.

Python floats are modelled as exact rationals (ℚ); the fallible/absent database
is modelled as an `Option`-valued fetch function; the external sklearn
IsolationForest fit is modelled as an abstract parameter whose observable
interface (predict / score_samples) is a pair of functions.
-/

namespace PowerGrid

/-- `SensorData` from common/models.py: one timestamped reading.
The timestamp is modelled as a rational instant. -/
structure SensorData where
  device_id : String
  timestamp : ℚ
  voltage : ℚ
  current : ℚ
  temperature : ℚ
  deriving DecidableEq, Repr

/-- `AnomalyAlert` from common/models.py.  The `description` field of the source
(a formatted string interpolating floats) carries no logic any claim depends on
and is omitted from the embedding. -/
structure AnomalyAlert where
  device_id : String
  timestamp : ℚ
  metric : String
  value : ℚ
  expected_range : ℚ × ℚ
  severity : String
  deriving DecidableEq, Repr

/-! Class constants of `AnomalyDetector` (detector.py). -/

def VOLTAGE_NOMINAL : ℚ := 230

def VOLTAGE_STD_DEV : ℚ := 5

def VOLTAGE_ANOMALY_THRESHOLD : ℚ := 3

def CURRENT_NOMINAL : ℚ := 4

def CURRENT_STD_DEV : ℚ := 1

def CURRENT_ANOMALY_THRESHOLD : ℚ := 3

def TEMPERATURE_NOMINAL : ℚ := 35

def TEMPERATURE_STD_DEV : ℚ := 5

def TEMPERATURE_ANOMALY_THRESHOLD : ℚ := 3

def VOLTAGE_MIN_SAFE : ℚ := 200

def VOLTAGE_MAX_SAFE : ℚ := 250

def TEMPERATURE_MAX_SAFE : ℚ := 70

/-- `statistics.mean`. -/
def mean (l : List ℚ) : ℚ := l.sum / l.length

/-- Rational square root standing in for `math.sqrt` inside `statistics.stdev`:
exact on every rational whose square root is rational (zero and squares are the
only values any theorem or evaluation below depends on). -/
def ratSqrt (q : ℚ) : ℚ := (Nat.sqrt q.num.toNat : ℚ) / (Nat.sqrt q.den : ℚ)

/-- `statistics.stdev`: sample standard deviation (denominator `n - 1`);
the source only calls it on lists of length ≥ 2. -/
def stdev (l : List ℚ) : ℚ :=
  ratSqrt (((l.map fun x => (x - mean l) ^ 2).sum) / ((l.length : ℚ) - 1))

/-- The per-metric values of the optional history.  Python truthiness
(`if historical:`) makes `None` and the empty list behave identically, so both
map to `[]`. -/
def histValues (f : SensorData → ℚ) : Option (List SensorData) → List ℚ
  | none => []
  | some hs => hs.map f

/-- The `(mean, std_dev)` pair a statistical check uses: historical mean with the
sample stdev when at least two points exist (else the fixed nominal std-dev),
or the nominal pair when there is no history. -/
def statBaseline (nomMean nomStd : ℚ) (vals : List ℚ) : ℚ × ℚ :=
  match vals with
  | [] => (nomMean, nomStd)
  | _ :: _ => (mean vals, if 1 < vals.length then stdev vals else nomStd)

/-- `deviation = abs(value - mean) / std_dev if std_dev > 0 else 0`. -/
def deviationFrom (b : ℚ × ℚ) (v : ℚ) : ℚ :=
  if b.2 > 0 then |v - b.1| / b.2 else 0

/-- The z-score the voltage statistical check computes. -/
def voltageDeviation (d : SensorData) (h : Option (List SensorData)) : ℚ :=
  deviationFrom (statBaseline VOLTAGE_NOMINAL VOLTAGE_STD_DEV
    (histValues (fun r => r.voltage) h)) d.voltage

/-- The z-score the current check computes. -/
def currentDeviation (d : SensorData) (h : Option (List SensorData)) : ℚ :=
  deviationFrom (statBaseline CURRENT_NOMINAL CURRENT_STD_DEV
    (histValues (fun r => r.current) h)) d.current

/-- The z-score the temperature statistical check computes. -/
def temperatureDeviation (d : SensorData) (h : Option (List SensorData)) : ℚ :=
  deviationFrom (statBaseline TEMPERATURE_NOMINAL TEMPERATURE_STD_DEV
    (histValues (fun r => r.temperature) h)) d.temperature

/-- The statistical (z-score) part of `_check_voltage`, reached when the
absolute safety check passed. -/
def voltageStatistical (d : SensorData) (h : Option (List SensorData)) : Option AnomalyAlert :=
  if voltageDeviation d h ≥ VOLTAGE_ANOMALY_THRESHOLD then
    some { device_id := d.device_id, timestamp := d.timestamp, metric := "voltage",
           value := d.voltage, expected_range := (VOLTAGE_MIN_SAFE, VOLTAGE_MAX_SAFE),
           severity := if voltageDeviation d h ≥ 4 then "high"
                       else if voltageDeviation d h ≥ 3 then "medium" else "low" }
  else none

/-- `AnomalyDetector._check_voltage`. -/
def check_voltage (d : SensorData) (h : Option (List SensorData)) : Option AnomalyAlert :=
  if d.voltage < VOLTAGE_MIN_SAFE ∨ d.voltage > VOLTAGE_MAX_SAFE then
    some { device_id := d.device_id, timestamp := d.timestamp, metric := "voltage",
           value := d.voltage, expected_range := (VOLTAGE_MIN_SAFE, VOLTAGE_MAX_SAFE),
           severity := "high" }
  else voltageStatistical d h

/-- `AnomalyDetector._check_current` (no absolute bound for current). -/
def check_current (d : SensorData) (h : Option (List SensorData)) : Option AnomalyAlert :=
  if currentDeviation d h ≥ CURRENT_ANOMALY_THRESHOLD then
    some { device_id := d.device_id, timestamp := d.timestamp, metric := "current",
           value := d.current, expected_range := (0, 10),
           severity := if currentDeviation d h ≥ 4 then "high"
                       else if currentDeviation d h ≥ 3 then "medium" else "low" }
  else none

/-- The statistical part of `_check_temperature` (the `temperature > 60` clause
sits inside the severity choice, under the ≥ 3σ gate). -/
def temperatureStatistical (d : SensorData) (h : Option (List SensorData)) : Option AnomalyAlert :=
  if temperatureDeviation d h ≥ TEMPERATURE_ANOMALY_THRESHOLD then
    some { device_id := d.device_id, timestamp := d.timestamp, metric := "temperature",
           value := d.temperature, expected_range := (0, TEMPERATURE_MAX_SAFE),
           severity := if temperatureDeviation d h ≥ 4 ∨ d.temperature > 60 then "high"
                       else if temperatureDeviation d h ≥ 3 then "medium" else "low" }
  else none

/-- `AnomalyDetector._check_temperature`. -/
def check_temperature (d : SensorData) (h : Option (List SensorData)) : Option AnomalyAlert :=
  if d.temperature > TEMPERATURE_MAX_SAFE then
    some { device_id := d.device_id, timestamp := d.timestamp, metric := "temperature",
           value := d.temperature, expected_range := (0, TEMPERATURE_MAX_SAFE),
           severity := "high" }
  else temperatureStatistical d h

/-- `severity_order = {'high': 3, 'medium': 2, 'low': 1}` with `.get(…, 0)`. -/
def severityOrder (s : String) : Nat :=
  if s = "high" then 3 else if s = "medium" then 2 else if s = "low" then 1 else 0

/-- Sort key of an alert inside `detect_anomaly`. -/
def sevKey (a : AnomalyAlert) : Nat := severityOrder a.severity

/-- The relation under which `detect_anomaly` sorts: descending severity.
A stable insertion sort with this (non-strict) relation keeps equal-severity
alerts in their original order, exactly like Python's stable
`alerts.sort(key=…, reverse=True)`. -/
def sortRel (a b : AnomalyAlert) : Prop := sevKey b ≤ sevKey a

instance : DecidableRel sortRel := fun a b => inferInstanceAs (Decidable (sevKey b ≤ sevKey a))

/-- The alert list `detect_anomaly` collects, in fixed order
voltage, current, temperature. -/
def raisedAlerts (d : SensorData) (h : Option (List SensorData)) : List AnomalyAlert :=
  (check_voltage d h).toList ++ (check_current d h).toList ++ (check_temperature d h).toList

/-- `AnomalyDetector.detect_anomaly`: collect the three per-metric alerts, sort
them by severity descending (stable), return the first, or `None` when no check
fired. -/
def detect_anomaly (d : SensorData) (h : Option (List SensorData)) : Option AnomalyAlert :=
  ((raisedAlerts d h).insertionSort sortRel).head?

/-- Python's `historical[-100:]`: the last `n` entries. -/
def lastN (n : Nat) (l : List α) : List α := l.drop (l.length - n)

/-- One step of the insertion-ordered grouping dict of
`detect_anomalies_batch`. -/
def insertReading (d : SensorData) :
    List (String × List SensorData) → List (String × List SensorData)
  | [] => [(d.device_id, [d])]
  | (k, ds) :: rest =>
    if k = d.device_id then (k, ds ++ [d]) :: rest
    else (k, ds) :: insertReading d rest

/-- `device_groups`: readings grouped by device id, keys and values both in
arrival order (Python dict insertion order). -/
def groupByDevice (l : List SensorData) : List (String × List SensorData) :=
  l.foldl (fun acc d => insertReading d acc) []

/-- The per-device loop of `detect_anomalies_batch`: each reading is scored
against the current context; the reading is appended to the context (then
re-capped to the last 100) only inside the `if alert:` branch, and only when a
historical list was fetched (`historical is not None`). -/
def processDevice : Option (List SensorData) → List SensorData → List AnomalyAlert
  | _, [] => []
  | hist, d :: rest =>
    match detect_anomaly d hist with
    | none => processDevice hist rest
    | some a =>
      a :: processDevice
        (match hist with
         | none => none
         | some hs => some (lastN 100 (hs ++ [d]))) rest

/-- `AnomalyDetector.detect_anomalies_batch`.  `fetch` models
`database.get_recent_data(device_id, limit=100)`: `none` when there is no
database or the fetch raised (the exception is caught and logged). -/
def detect_anomalies_batch (fetch : String → Option (List SensorData))
    (l : List SensorData) : List AnomalyAlert :=
  (groupByDevice l).foldl (fun acc p => acc ++ processDevice (fetch p.1) p.2) []

/-- Modelled from the spec: the batch contract of §4.1 in the spec's words —
"each reading in arrival order is evaluated against the context built from all
readings seen so far for that device in the batch, then the just-scored reading
is appended to the context and the context is re-capped to the most recent 100
entries", i.e. the append happens after every evaluation, flagged or not.
Used only to compare the source's behaviour with the spec's words. -/
def processDeviceSpec : Option (List SensorData) → List SensorData → List AnomalyAlert
  | _, [] => []
  | hist, d :: rest =>
    match detect_anomaly d hist,
          (match hist with
           | none => none
           | some hs => some (lastN 100 (hs ++ [d])) : Option (List SensorData)) with
    | none, hist2 => processDeviceSpec hist2 rest
    | some a, hist2 => a :: processDeviceSpec hist2 rest

/-- Modelled from the spec: batch evaluation with the spec's unconditional
context threading (see `processDeviceSpec`). -/
def detect_anomalies_batch_spec (fetch : String → Option (List SensorData))
    (l : List SensorData) : List AnomalyAlert :=
  (groupByDevice l).foldl (fun acc p => acc ++ processDeviceSpec (fetch p.1) p.2) []

/-! ## Outlier model engine (engine.py) -/

/-- The observable interface of a fitted `IsolationForest`:
`predict` returns -1 for an outlier and 1 for an inlier, `score_samples` a
continuous anomaly score (more negative = more anomalous).  The fitting
algorithm itself is the external sklearn collaborator; `train_model` below
receives it as the abstract parameter `fit`. -/
structure FittedForest where
  predict : List ℚ → Int
  score_samples : List ℚ → ℚ

/-- The mutable state of `AnomalyDetectionEngine` that training and scoring
touch: the optional fitted model, the fitted scaler parameters, the
trained flag, and the `contamination` setting. -/
structure EngineState where
  isolation_forest : Option FittedForest
  scalerMeans : List ℚ
  scalerScales : List ℚ
  is_trained : Bool
  contamination : ℚ

/-- The state right after `__init__`: no model, unfitted scaler, untrained. -/
def initialEngine (contamination : ℚ) : EngineState :=
  { isolation_forest := none, scalerMeans := [], scalerScales := [],
    is_trained := false, contamination := contamination }

/-- The feature vector of `prepare_features`:
`[voltage, current, temperature, voltage*current, |voltage-230|, |current-4|]`. -/
def featureVector (d : SensorData) : List ℚ :=
  [d.voltage, d.current, d.temperature, d.voltage * d.current,
   |d.voltage - 230|, |d.current - 4|]

/-- `AnomalyDetectionEngine.prepare_features`. -/
def prepare_features (l : List SensorData) : List (List ℚ) := l.map featureVector

/-- Column `j` of a feature matrix. -/
def column (j : Nat) (X : List (List ℚ)) : List ℚ := X.map fun row => row.getD j 0

/-- Population variance (ddof = 0), as `StandardScaler` uses. -/
def popVariance (l : List ℚ) : ℚ := ((l.map fun x => (x - mean l) ^ 2).sum) / l.length

/-- Column-wise means fitted by `StandardScaler.fit_transform`. -/
def colMeans (X : List (List ℚ)) : List ℚ := (List.range 6).map fun j => mean (column j X)

/-- Column-wise scales fitted by `StandardScaler.fit_transform`: the population
standard deviation, with zero-variance columns scaled by 1
(sklearn's `_handle_zeros_in_scale`). -/
def colScales (X : List (List ℚ)) : List ℚ :=
  (List.range 6).map fun j =>
    if ratSqrt (popVariance (column j X)) = 0 then 1 else ratSqrt (popVariance (column j X))

/-- `StandardScaler.transform` on one feature row, with the stored fit. -/
def scaleRow (means scales : List ℚ) (row : List ℚ) : List ℚ :=
  (List.range 6).map fun j => (row.getD j 0 - means.getD j 0) / (scales.getD j 1)

/-- `AnomalyDetectionEngine.train_model`.  `fit` is the external
`IsolationForest(contamination, random_state=42, n_estimators=100).fit` call.
Returns the engine state after the call together with a flag that is `true`
exactly when the insufficient-data warning was printed.  With fewer than 10
samples the method returns before touching any state. -/
def train_model (fit : ℚ → List (List ℚ) → FittedForest) (st : EngineState)
    (training_data : List SensorData) : EngineState × Bool :=
  if training_data.length < 10 then (st, true)
  else
    ({ st with
        scalerMeans := colMeans (prepare_features training_data),
        scalerScales := colScales (prepare_features training_data),
        isolation_forest := some (fit st.contamination
          ((prepare_features training_data).map
            (scaleRow (colMeans (prepare_features training_data))
              (colScales (prepare_features training_data))))),
        is_trained := true }, false)

/-- The alert `detect_anomalies` builds for a reading flagged as an outlier:
severity from the anomaly score, attributed metric from the strict magnitude
comparison of the three nominal deviations. -/
def buildAlert (d : SensorData) (score : ℚ) : AnomalyAlert :=
  if |d.voltage - 230| > |d.current - 4| ∧ |d.voltage - 230| > |d.temperature - 35| then
    { device_id := d.device_id, timestamp := d.timestamp, metric := "voltage",
      value := d.voltage, expected_range := (200, 250),
      severity := if score < -(1/2) then "high"
                  else if score < -(3/10) then "medium" else "low" }
  else if |d.current - 4| > |d.temperature - 35| then
    { device_id := d.device_id, timestamp := d.timestamp, metric := "current",
      value := d.current, expected_range := (0, 10),
      severity := if score < -(1/2) then "high"
                  else if score < -(3/10) then "medium" else "low" }
  else
    { device_id := d.device_id, timestamp := d.timestamp, metric := "temperature",
      value := d.temperature, expected_range := (0, 80),
      severity := if score < -(1/2) then "high"
                  else if score < -(3/10) then "medium" else "low" }

/-- `AnomalyDetectionEngine.detect_anomalies`: empty while untrained or without
a fitted model or on empty input; otherwise scale each feature row with the
training-time scaler parameters and keep, for each reading the fitted model
labels -1, the alert `buildAlert` constructs. -/
def detect_anomalies (st : EngineState) (l : List SensorData) : List AnomalyAlert :=
  if st.is_trained = false then []
  else
    match st.isolation_forest with
    | none => []
    | some forest =>
      if l.isEmpty then []
      else
        l.filterMap fun d =>
          if forest.predict (scaleRow st.scalerMeans st.scalerScales (featureVector d)) = -1 then
            some (buildAlert d
              (forest.score_samples (scaleRow st.scalerMeans st.scalerScales (featureVector d))))
          else none

/-- Modelled from the spec (the claim as stated): the attributed metric is the
largest of the three deviations, ties broken with fixed precedence
voltage > current > temperature. -/
def specAttribution (vdev cdev tdev : ℚ) : String :=
  if vdev ≥ cdev ∧ vdev ≥ tdev then "voltage"
  else if cdev ≥ tdev then "current"
  else "temperature"

/-- The amended attribution rule: the largest of the three deviations wins,
ties broken with fixed precedence temperature > current > voltage (the later
metric in evaluation order wins ties). -/
def amendedAttribution (vdev cdev tdev : ℚ) : String :=
  if tdev ≥ vdev ∧ tdev ≥ cdev then "temperature"
  else if cdev ≥ vdev then "current"
  else "voltage"

/-- From the spec's words: return the highest-severity alert, a tie on the
highest severity being won by the alert evaluated first (the earlier list
entry). -/
def firstMaxBySeverity : List AnomalyAlert → Option AnomalyAlert
  | [] => none
  | a :: rest =>
    match firstMaxBySeverity rest with
    | none => some a
    | some b => if sevKey a < sevKey b then some b else some a

/-! Concrete inputs used by the closed evaluation theorems below. -/

/-- A fetch that finds a database holding no prior rows for any device. -/
def exC1fetch : String → Option (List SensorData) := fun _ => some []

/-- First same-device batch reading: voltage 216, unflagged against the nominal
baseline (|216-230|/5 = 2.8 < 3). -/
def exR1 : SensorData := ⟨"dev1", 0, 216, 4, 35⟩

/-- Variant of `exR1` with voltage 244, also unflagged (2.8σ on the other side). -/
def exR1b : SensorData := ⟨"dev1", 0, 244, 4, 35⟩

/-- Second same-device batch reading: voltage 202, anomalous against the nominal
baseline (5.6σ) but within 3σ of a context containing `exR1` (|202-216|/5 = 2.8). -/
def exR2 : SensorData := ⟨"dev1", 1, 202, 4, 35⟩

/-- A fitted model that flags everything with score -1 (outlier). -/
def exForest : FittedForest := ⟨fun _ => -1, fun _ => -1⟩

/-- A trained engine state with identity scaling. -/
def exStC2 : EngineState :=
  { isolation_forest := some exForest, scalerMeans := [0, 0, 0, 0, 0, 0],
    scalerScales := [1, 1, 1, 1, 1, 1], is_trained := true, contamination := 1/10 }

/-- Voltage deviation 5 and current deviation 5 tie as the largest
(temperature deviation 0). -/
def exDC2 : SensorData := ⟨"d2", 0, 235, 9, 35⟩

/-- Voltage 230 (deviation 0) but current 8 (4σ above the nominal 4±1). -/
def exDC3 : SensorData := ⟨"d3", 0, 230, 8, 35⟩

/-- Voltage 240: in range, 2σ from nominal; current and temperature nominal. -/
def exW3 : SensorData := ⟨"w3", 0, 240, 4, 35⟩

def exW4 : SensorData := ⟨"w4", 0, 260, 4, 35⟩

/-- Voltage 260 (absolute violation, high) and current 10 (6σ, high): two
alerts tie on severity. -/
def exW5 : SensorData := ⟨"w5", 0, 260, 10, 35⟩

def exW6 : SensorData := ⟨"w6", 0, 260, 4, 35⟩

/-- The alert `check_voltage` produces for `exW6` with no history. -/
def exA6 : AnomalyAlert := ⟨"w6", 0, "voltage", 260, (200, 250), "high"⟩

def exW7d : SensorData := ⟨"w7", 2, 230, 1000, 35⟩

/-- Two readings with identical current 5: sample stdev of the currents is 0. -/
def exW7hs : List SensorData := [⟨"w7", 0, 230, 5, 35⟩, ⟨"w7", 1, 231, 5, 36⟩]

/-- A stand-in external fit call. -/
def exFit : ℚ → List (List ℚ) → FittedForest := fun _ _ => ⟨fun _ => 1, fun _ => 0⟩

def exW9 : SensorData := ⟨"w9", 0, 230, 4, 35⟩

/-- Exactly on the boundaries: voltage 200, temperature 70. -/
def exW10 : SensorData := ⟨"w10", 0, 200, 4, 70⟩

/-! ## Helper lemmas -/

theorem severityOrder_le_three (s : String) : severityOrder s ≤ 3 := by
  unfold severityOrder
  split_ifs <;> omega

theorem firstMaxBySeverity_mem {l : List AnomalyAlert} {b : AnomalyAlert}
    (hb : firstMaxBySeverity l = some b) : b ∈ l := by
  induction l with
  | nil => simp [firstMaxBySeverity] at hb
  | cons a t ih =>
    simp only [firstMaxBySeverity] at hb
    cases hf : firstMaxBySeverity t with
    | none =>
      rw [hf] at hb
      simp only [] at hb
      injection hb with hab
      rw [← hab]
      exact List.mem_cons_self _ _
    | some c =>
      rw [hf] at hb
      simp only [] at hb
      split_ifs at hb with hlt
      · injection hb with hab
        rw [hab] at hf
        exact List.mem_cons_of_mem _ (ih hf)
      · injection hb with hab
        rw [← hab]
        exact List.mem_cons_self _ _

theorem head_insertionSort_firstMax (l : List AnomalyAlert) :
    (l.insertionSort sortRel).head? = firstMaxBySeverity l := by
  induction l with
  | nil => rfl
  | cons a t ih =>
    simp only [List.insertionSort, firstMaxBySeverity]
    cases hs : t.insertionSort sortRel with
    | nil =>
      have ht : firstMaxBySeverity t = none := by rw [← ih, hs]; rfl
      rw [ht]
      simp only [List.orderedInsert, List.head?]
    | cons b bs =>
      have hb : firstMaxBySeverity t = some b := by rw [← ih, hs]; rfl
      rw [hb]
      simp only [List.orderedInsert]
      by_cases hab : sortRel a b
      · rw [if_pos hab]
        have hnlt : ¬ sevKey a < sevKey b := Nat.not_lt.mpr hab
        simp [hnlt]
      · rw [if_neg hab]
        have hlt : sevKey a < sevKey b := Nat.not_le.mp hab
        simp [hlt]

theorem firstMax_cons_of_max {a : AnomalyAlert} {rest : List AnomalyAlert}
    (hmax : ∀ b ∈ rest, sevKey b ≤ sevKey a) :
    firstMaxBySeverity (a :: rest) = some a := by
  simp only [firstMaxBySeverity]
  cases hf : firstMaxBySeverity rest with
  | none => rfl
  | some b =>
    have hle := hmax b (firstMaxBySeverity_mem hf)
    simp only []
    rw [if_neg (Nat.not_lt.mpr hle)]

theorem detect_anomaly_mem {d : SensorData} {h : Option (List SensorData)} {a : AnomalyAlert}
    (ha : detect_anomaly d h = some a) : a ∈ raisedAlerts d h := by
  unfold detect_anomaly at ha
  cases hs : (raisedAlerts d h).insertionSort sortRel with
  | nil => rw [hs] at ha; cases ha
  | cons x xs =>
    rw [hs] at ha
    simp only [List.head?] at ha
    injection ha with hxa
    have hx : a ∈ (raisedAlerts d h).insertionSort sortRel := by
      rw [hs, ← hxa]
      exact List.mem_cons_self _ _
    exact (List.perm_insertionSort sortRel (raisedAlerts d h)).subset hx

theorem check_voltage_metric {d : SensorData} {h : Option (List SensorData)} {a : AnomalyAlert}
    (hc : check_voltage d h = some a) : a.metric = "voltage" := by
  unfold check_voltage voltageStatistical at hc
  split_ifs at hc
  all_goals first
    | exact Option.noConfusion hc
    | (injection hc with h2; subst h2; rfl)

theorem check_current_metric {d : SensorData} {h : Option (List SensorData)} {a : AnomalyAlert}
    (hc : check_current d h = some a) : a.metric = "current" := by
  unfold check_current at hc
  split_ifs at hc
  all_goals first
    | exact Option.noConfusion hc
    | (injection hc with h2; subst h2; rfl)

theorem check_temperature_metric {d : SensorData} {h : Option (List SensorData)} {a : AnomalyAlert}
    (hc : check_temperature d h = some a) : a.metric = "temperature" := by
  unfold check_temperature temperatureStatistical at hc
  split_ifs at hc
  all_goals first
    | exact Option.noConfusion hc
    | (injection hc with h2; subst h2; rfl)

theorem ratSqrt_zero : ratSqrt 0 = 0 := by
  unfold ratSqrt
  norm_num

theorem mean_replicate {n : Nat} (hn : n ≠ 0) (x : ℚ) : mean (List.replicate n x) = x := by
  unfold mean
  rw [List.sum_replicate, List.length_replicate, nsmul_eq_mul]
  exact mul_div_cancel_left₀ x (Nat.cast_ne_zero.mpr hn)

theorem stdev_replicate {n : Nat} (hn : n ≠ 0) (x : ℚ) : stdev (List.replicate n x) = 0 := by
  unfold stdev
  rw [mean_replicate hn]
  have hmap : (List.replicate n x).map (fun y => (y - x) ^ 2) = List.replicate n 0 := by
    rw [List.map_replicate]
    norm_num
  rw [hmap, List.sum_replicate, smul_zero, zero_div, ratSqrt_zero]

theorem statBaseline_of_const {nm ns x : ℚ} {vals : List ℚ} (hlen : 1 < vals.length)
    (hconst : ∀ y ∈ vals, y = x) : statBaseline nm ns vals = (x, 0) := by
  have hrep : vals = List.replicate vals.length x := by
    rw [List.eq_replicate_iff]
    exact ⟨rfl, hconst⟩
  have hn : vals.length ≠ 0 := by omega
  obtain ⟨a, t, hv⟩ : ∃ a t, vals = a :: t := by
    cases vals with
    | nil => simp at hlen
    | cons a t => exact ⟨a, t, rfl⟩
  subst hv
  show (mean (a :: t), if 1 < (a :: t).length then stdev (a :: t) else ns) = (x, 0)
  rw [hrep, mean_replicate hn, stdev_replicate hn, List.length_replicate, if_pos hlen]

theorem deviationFrom_zero_std (m v : ℚ) : deviationFrom (m, 0) v = 0 := by
  unfold deviationFrom
  norm_num

/-! ## Claim theorems -/

/-- C1: the batch evaluator appends a reading to the per-device context only
when that reading itself produced an alert (the append sits inside the
`if alert:` branch of `detect_anomalies_batch`), so an unflagged R1 never
becomes part of R2's context.  Concretely, with the fetched history empty:
both R1 variants (voltage 216 and 244) are unflagged; the code flags R2
(voltage 202, 5.6σ against the nominal baseline) and its output is identical
for the two R1 variants, while the spec's threading
(`detect_anomalies_batch_spec`) evaluates R2 against [R1] — no alert when
R1 = 216 (2.8σ), a voltage alert when R1 = 244 (8.4σ) — so under the spec the
value of R1 decides whether R2 is flagged, and under the code it cannot. -/
theorem C1_batch_divergence :
    detect_anomaly exR1 (some []) = none ∧
    detect_anomaly exR1b (some []) = none ∧
    (detect_anomalies_batch exC1fetch [exR1, exR2]).map (fun a => a.metric) = ["voltage"] ∧
    detect_anomalies_batch exC1fetch [exR1b, exR2]
      = detect_anomalies_batch exC1fetch [exR1, exR2] ∧
    detect_anomalies_batch_spec exC1fetch [exR1, exR2] = [] ∧
    (detect_anomalies_batch_spec exC1fetch [exR1b, exR2]).map (fun a => a.metric)
      = ["voltage"] := by
  refine ⟨?_, ?_, ?_, ?_, ?_, ?_⟩ <;>
    norm_num [detect_anomalies_batch, detect_anomalies_batch_spec, groupByDevice,
      insertReading, processDevice, processDeviceSpec, lastN, exC1fetch, exR1, exR1b, exR2,
      detect_anomaly, raisedAlerts, check_voltage, check_current, check_temperature,
      voltageStatistical, temperatureStatistical, voltageDeviation, currentDeviation,
      temperatureDeviation, histValues, statBaseline, deviationFrom, mean,
      List.insertionSort, List.orderedInsert, sortRel, sevKey, severityOrder,
      VOLTAGE_MIN_SAFE, VOLTAGE_MAX_SAFE, VOLTAGE_NOMINAL, VOLTAGE_STD_DEV,
      VOLTAGE_ANOMALY_THRESHOLD, CURRENT_NOMINAL, CURRENT_STD_DEV, CURRENT_ANOMALY_THRESHOLD,
      TEMPERATURE_NOMINAL, TEMPERATURE_STD_DEV, TEMPERATURE_ANOMALY_THRESHOLD,
      TEMPERATURE_MAX_SAFE]

/-- C2 (counterexample): with voltage deviation 5 = current deviation 5 >
temperature deviation 0, the engine attributes the flagged outlier to
`current` (the strict comparisons favour the later metric), while the claim's
rule — largest deviation, ties with precedence voltage > current >
temperature — picks `voltage`. -/
theorem C2_counterexample :
    (detect_anomalies exStC2 [exDC2]).map (fun a => a.metric) = ["current"] ∧
    specAttribution |exDC2.voltage - 230| |exDC2.current - 4| |exDC2.temperature - 35|
      = "voltage" := by
  constructor
  · norm_num [detect_anomalies, exStC2, exForest, exDC2, buildAlert, List.filterMap]
  · norm_num [specAttribution, exDC2]

/-- The source's three-way strict attribution branch agrees with "largest wins,
ties broken temperature > current > voltage" on all rationals. -/
theorem attribution_tie_order (vd cd td : ℚ) :
    (if vd > cd ∧ vd > td then "voltage" else if cd > td then "current" else "temperature")
      = amendedAttribution vd cd td := by
  unfold amendedAttribution
  rcases le_or_lt vd cd with hvc | hvc
  · rw [if_neg (by rintro ⟨hx, _⟩; exact absurd hx (not_lt.mpr hvc))]
    rcases le_or_lt cd td with hct | hct
    · rw [if_neg (not_lt.mpr hct), if_pos ⟨by linarith, hct⟩]
    · rw [if_pos hct, if_neg (by rintro ⟨_, hx⟩; exact absurd hx (not_le.mpr hct)), if_pos hvc]
  · rcases le_or_lt vd td with hvt | hvt
    · rw [if_neg (by rintro ⟨_, hx⟩; exact absurd hx (not_lt.mpr hvt)),
          if_neg (not_lt.mpr (by linarith)), if_pos ⟨hvt, by linarith⟩]
    · rw [if_pos ⟨hvc, hvt⟩,
          if_neg (by rintro ⟨hx, _⟩; exact absurd hx (not_le.mpr hvt)),
          if_neg (not_le.mpr hvc)]

/-- C2 (amended): the metric the engine attributes a flagged outlier to is the
largest of |voltage-230|, |current-4|, |temperature-35|, with ties broken by
the fixed precedence temperature > current > voltage — the reverse of the
rule-based detector's tie order. -/
theorem C2_attribution_amended (d : SensorData) (score : ℚ) :
    (buildAlert d score).metric =
      amendedAttribution |d.voltage - 230| |d.current - 4| |d.temperature - 35| := by
  have hb : (buildAlert d score).metric =
      (if |d.voltage - 230| > |d.current - 4| ∧ |d.voltage - 230| > |d.temperature - 35|
       then "voltage" else if |d.current - 4| > |d.temperature - 35|
       then "current" else "temperature") := by
    unfold buildAlert
    split_ifs <;> rfl
  rw [hb]
  exact attribution_tie_order _ _ _

/-- C3 (counterexample): voltage 230 is strictly inside [200, 250] with zero
voltage deviation, yet `detect_anomaly` returns an alert — current 8 sits 4σ
from its nominal baseline — so the claim's "returns none" fails. -/
theorem C3_counterexample :
    VOLTAGE_MIN_SAFE < exDC3.voltage ∧ exDC3.voltage < VOLTAGE_MAX_SAFE ∧
    voltageDeviation exDC3 none < VOLTAGE_ANOMALY_THRESHOLD ∧
    detect_anomaly exDC3 none ≠ none := by
  refine ⟨by norm_num [exDC3, VOLTAGE_MIN_SAFE], by norm_num [exDC3, VOLTAGE_MAX_SAFE], ?_, ?_⟩
  · norm_num [voltageDeviation, exDC3, histValues, statBaseline, deviationFrom,
      VOLTAGE_NOMINAL, VOLTAGE_STD_DEV, VOLTAGE_ANOMALY_THRESHOLD]
  · have hd : detect_anomaly exDC3 none =
        some { device_id := "d3", timestamp := 0, metric := "current", value := 8,
               expected_range := (0, 10), severity := "high" } := by
      norm_num [detect_anomaly, raisedAlerts, check_voltage, check_current, check_temperature,
        voltageStatistical, temperatureStatistical, voltageDeviation, currentDeviation,
        temperatureDeviation, histValues, statBaseline, deviationFrom, exDC3,
        List.insertionSort, List.orderedInsert, sortRel, sevKey, severityOrder,
        VOLTAGE_MIN_SAFE, VOLTAGE_MAX_SAFE, VOLTAGE_NOMINAL, VOLTAGE_STD_DEV,
        VOLTAGE_ANOMALY_THRESHOLD, CURRENT_NOMINAL, CURRENT_STD_DEV, CURRENT_ANOMALY_THRESHOLD,
        TEMPERATURE_NOMINAL, TEMPERATURE_STD_DEV, TEMPERATURE_ANOMALY_THRESHOLD,
        TEMPERATURE_MAX_SAFE]
    rw [hd]
    simp

/-- C3 (amended): with voltage strictly inside [200, 250] and its z-score below
3, the voltage check raises nothing, so any alert `detect_anomaly` returns for
such a reading concerns current or temperature — never voltage. -/
theorem C3_voltage_quiet_amended (d : SensorData) (h : Option (List SensorData))
    (h1 : VOLTAGE_MIN_SAFE < d.voltage) (h2 : d.voltage < VOLTAGE_MAX_SAFE)
    (h3 : voltageDeviation d h < VOLTAGE_ANOMALY_THRESHOLD) :
    check_voltage d h = none ∧
    ∀ a, detect_anomaly d h = some a → a.metric ≠ "voltage" := by
  have hcv : check_voltage d h = none := by
    unfold check_voltage
    rw [if_neg (by push_neg; exact ⟨le_of_lt h1, le_of_lt h2⟩)]
    unfold voltageStatistical
    rw [if_neg (not_le.mpr h3)]
  refine ⟨hcv, fun a ha => ?_⟩
  have hm := detect_anomaly_mem ha
  unfold raisedAlerts at hm
  rw [hcv] at hm
  simp only [Option.toList_none, List.nil_append] at hm
  rcases List.mem_append.mp hm with hc | ht
  · cases hcc : check_current d h with
    | none => rw [hcc] at hc; simp at hc
    | some c =>
      rw [hcc] at hc
      simp only [Option.toList_some, List.mem_singleton] at hc
      subst hc
      rw [check_current_metric hcc]
      decide
  · cases hct : check_temperature d h with
    | none => rw [hct] at ht; simp at ht
    | some c =>
      rw [hct] at ht
      simp only [Option.toList_some, List.mem_singleton] at ht
      subst ht
      rw [check_temperature_metric hct]
      decide

/-- Witness for C3's amended theorem at voltage 240 (2σ) with no history. -/
theorem C3_witness :
    check_voltage exW3 none = none ∧
    ∀ a, detect_anomaly exW3 none = some a → a.metric ≠ "voltage" :=
  C3_voltage_quiet_amended exW3 none (by norm_num [exW3, VOLTAGE_MIN_SAFE])
    (by norm_num [exW3, VOLTAGE_MAX_SAFE])
    (by norm_num [voltageDeviation, exW3, histValues, statBaseline, deviationFrom,
      VOLTAGE_NOMINAL, VOLTAGE_STD_DEV, VOLTAGE_ANOMALY_THRESHOLD])

/-- C4: a reading whose voltage lies outside the absolute safety range
[200, 250] makes `detect_anomaly` return a high-severity voltage alert whatever
the historical context: the absolute check short-circuits the statistical one,
and no other metric can outrank or displace the first-listed high alert. -/
theorem C4_absolute_short_circuit (d : SensorData) (h : Option (List SensorData))
    (hv : d.voltage < VOLTAGE_MIN_SAFE ∨ d.voltage > VOLTAGE_MAX_SAFE) :
    ∃ a, detect_anomaly d h = some a ∧ a.metric = "voltage" ∧ a.severity = "high" := by
  have hcv : check_voltage d h =
      some { device_id := d.device_id, timestamp := d.timestamp, metric := "voltage",
             value := d.voltage, expected_range := (VOLTAGE_MIN_SAFE, VOLTAGE_MAX_SAFE),
             severity := "high" } := by
    unfold check_voltage
    rw [if_pos hv]
  refine ⟨{ device_id := d.device_id, timestamp := d.timestamp, metric := "voltage",
            value := d.voltage, expected_range := (VOLTAGE_MIN_SAFE, VOLTAGE_MAX_SAFE),
            severity := "high" }, ?_, rfl, rfl⟩
  unfold detect_anomaly
  rw [head_insertionSort_firstMax]
  have hra : raisedAlerts d h =
      { device_id := d.device_id, timestamp := d.timestamp, metric := "voltage",
        value := d.voltage, expected_range := (VOLTAGE_MIN_SAFE, VOLTAGE_MAX_SAFE),
        severity := "high" } ::
      ((check_current d h).toList ++ (check_temperature d h).toList) := by
    unfold raisedAlerts
    rw [hcv]
    rfl
  rw [hra]
  apply firstMax_cons_of_max
  intro b _
  have hb3 : sevKey b ≤ 3 := severityOrder_le_three b.severity
  simpa [sevKey, severityOrder] using hb3

/-- Witness for C4 at voltage 260 with no history. -/
theorem C4_witness :
    ∃ a, detect_anomaly exW4 none = some a ∧ a.metric = "voltage" ∧ a.severity = "high" :=
  C4_absolute_short_circuit exW4 none (Or.inr (by norm_num [exW4, VOLTAGE_MAX_SAFE]))

/-- C5: when more than one metric check raises an alert, `detect_anomaly`
returns the highest-severity one, a tie on the highest severity being won by
the metric evaluated first in the fixed order voltage, current, temperature —
i.e. the first maximal-severity entry of the collected alert list. -/
theorem C5_most_severe_wins (d : SensorData) (h : Option (List SensorData))
    (_hmulti : 1 < (raisedAlerts d h).length) :
    detect_anomaly d h = firstMaxBySeverity (raisedAlerts d h) := by
  unfold detect_anomaly
  exact head_insertionSort_firstMax _

/-- Witness for C5: voltage 260 (absolute bound, high) and current 10 (6σ,
high) tie; the voltage alert, evaluated first, is the one returned. -/
theorem C5_witness :
    1 < (raisedAlerts exW5 none).length ∧
    detect_anomaly exW5 none = firstMaxBySeverity (raisedAlerts exW5 none) := by
  have hlen : 1 < (raisedAlerts exW5 none).length := by
    norm_num [raisedAlerts, check_voltage, check_current, check_temperature,
      voltageStatistical, temperatureStatistical, voltageDeviation, currentDeviation,
      temperatureDeviation, histValues, statBaseline, deviationFrom, exW5,
      VOLTAGE_MIN_SAFE, VOLTAGE_MAX_SAFE, VOLTAGE_NOMINAL, VOLTAGE_STD_DEV,
      VOLTAGE_ANOMALY_THRESHOLD, CURRENT_NOMINAL, CURRENT_STD_DEV,
      CURRENT_ANOMALY_THRESHOLD, TEMPERATURE_NOMINAL, TEMPERATURE_STD_DEV,
      TEMPERATURE_ANOMALY_THRESHOLD, TEMPERATURE_MAX_SAFE]
  exact ⟨hlen, C5_most_severe_wins exW5 none hlen⟩

/-- C6: every alert any of the three metric checks produces carries severity
"medium" or "high"; the `low` branch below the ≥ 3σ gate is unreachable. -/
theorem C6_no_low_severity (d : SensorData) (h : Option (List SensorData)) (a : AnomalyAlert) :
    (check_voltage d h = some a → a.severity = "medium" ∨ a.severity = "high") ∧
    (check_current d h = some a → a.severity = "medium" ∨ a.severity = "high") ∧
    (check_temperature d h = some a → a.severity = "medium" ∨ a.severity = "high") := by
  refine ⟨?_, ?_, ?_⟩ <;> intro hc
  · unfold check_voltage voltageStatistical at hc
    split_ifs at hc
    all_goals first
      | exact Option.noConfusion hc
      | (injection hc with h5; subst h5; first
          | exact Or.inr rfl
          | exact Or.inl rfl
          | (exfalso
             simp only [VOLTAGE_ANOMALY_THRESHOLD] at *
             linarith))
  · unfold check_current at hc
    split_ifs at hc
    all_goals first
      | exact Option.noConfusion hc
      | (injection hc with h5; subst h5; first
          | exact Or.inr rfl
          | exact Or.inl rfl
          | (exfalso
             simp only [CURRENT_ANOMALY_THRESHOLD] at *
             linarith))
  · unfold check_temperature temperatureStatistical at hc
    split_ifs at hc
    all_goals first
      | exact Option.noConfusion hc
      | (injection hc with h5; subst h5; first
          | exact Or.inr rfl
          | exact Or.inl rfl
          | (exfalso
             simp only [TEMPERATURE_ANOMALY_THRESHOLD] at *
             linarith))

/-- Witness for C6 on the high voltage alert at 260. -/
theorem C6_witness : exA6.severity = "medium" ∨ exA6.severity = "high" :=
  (C6_no_low_severity exW6 none exA6).1
    (by norm_num [check_voltage, exW6, exA6, VOLTAGE_MIN_SAFE, VOLTAGE_MAX_SAFE])

/-- C7: a zero sample standard deviation — e.g. any history of at least two
identical values — makes the guarded z-score 0 by definition, so the
statistical branch never divides by zero; in particular a constant-valued
history silences the corresponding statistical check outright. -/
theorem C7_zero_stdev_deviation (nm ns v x : ℚ) (vals : List ℚ)
    (hlen : 1 < vals.length) (hconst : ∀ y ∈ vals, y = x) :
    stdev vals = 0 ∧ deviationFrom (statBaseline nm ns vals) v = 0 ∧
    (∀ (d : SensorData) (hs : List SensorData),
      hs.map (fun r => r.current) = vals → check_current d (some hs) = none) ∧
    (∀ (d : SensorData) (hs : List SensorData),
      hs.map (fun r => r.voltage) = vals → voltageStatistical d (some hs) = none) ∧
    (∀ (d : SensorData) (hs : List SensorData),
      hs.map (fun r => r.temperature) = vals → temperatureStatistical d (some hs) = none) := by
  have hrep : vals = List.replicate vals.length x := by
    rw [List.eq_replicate_iff]
    exact ⟨rfl, hconst⟩
  have hn : vals.length ≠ 0 := by omega
  have hstd : stdev vals = 0 := by
    conv_lhs => rw [hrep]
    exact stdev_replicate hn x
  have hdev : ∀ nm2 ns2 w : ℚ, deviationFrom (statBaseline nm2 ns2 vals) w = 0 := by
    intro nm2 ns2 w
    rw [statBaseline_of_const hlen hconst]
    exact deviationFrom_zero_std x w
  refine ⟨hstd, hdev nm ns v, ?_, ?_, ?_⟩
  · intro d hs hmap
    unfold check_current currentDeviation
    rw [show histValues (fun r => r.current) (some hs) = vals from hmap, hdev]
    norm_num [CURRENT_ANOMALY_THRESHOLD]
  · intro d hs hmap
    unfold voltageStatistical voltageDeviation
    rw [show histValues (fun r => r.voltage) (some hs) = vals from hmap, hdev]
    norm_num [VOLTAGE_ANOMALY_THRESHOLD]
  · intro d hs hmap
    unfold temperatureStatistical temperatureDeviation
    rw [show histValues (fun r => r.temperature) (some hs) = vals from hmap, hdev]
    norm_num [TEMPERATURE_ANOMALY_THRESHOLD]

/-- Witness for C7 on a two-reading history with constant current 5 and a wild
current reading of 1000. -/
theorem C7_witness :
    stdev [(5 : ℚ), 5] = 0 ∧
    deviationFrom (statBaseline 4 1 [(5 : ℚ), 5]) 1000 = 0 ∧
    check_current exW7d (some exW7hs) = none := by
  obtain ⟨hs1, hs2, hs3, _, _⟩ :=
    C7_zero_stdev_deviation 4 1 1000 5 [(5 : ℚ), 5] (by norm_num) (by simp)
  exact ⟨hs1, hs2, hs3 exW7d exW7hs (by norm_num [exW7hs])⟩

/-- C8: `train_model` on fewer than 10 samples surfaces the warning and
returns before fitting anything: the detector state — model, scaler, trained
flag — is exactly the prior state. -/
theorem C8_insufficient_training (fit : ℚ → List (List ℚ) → FittedForest)
    (st : EngineState) (td : List SensorData) (hlt : td.length < 10) :
    train_model fit st td = (st, true) := by
  unfold train_model
  rw [if_pos hlt]

/-- Witness for C8 on the empty training set and a freshly initialised engine. -/
theorem C8_witness :
    train_model exFit (initialEngine (1/10)) [] = (initialEngine (1/10), true) :=
  C8_insufficient_training exFit (initialEngine (1/10)) [] (by norm_num)

/-- C9: scoring is a total no-op returning [] — never an error — whenever the
engine is untrained, holds no fitted model, or receives an empty input. -/
theorem C9_score_gate (st : EngineState) (l : List SensorData)
    (hcase : st.is_trained = false ∨ st.isolation_forest = none ∨ l = []) :
    detect_anomalies st l = [] := by
  unfold detect_anomalies
  rcases hcase with hcase | hcase | hcase
  · rw [if_pos hcase]
  · split
    · rfl
    · rw [hcase]
  · subst hcase
    split
    · rfl
    · cases st.isolation_forest with
      | none => rfl
      | some f => simp

/-- Witness for C9: a never-trained engine maps a nonempty batch to []. -/
theorem C9_witness : detect_anomalies (initialEngine (1/10)) [exW9] = [] :=
  C9_score_gate (initialEngine (1/10)) [exW9] (Or.inl rfl)

/-- C10: the absolute-bound comparisons are strict, so voltage exactly 200 or
exactly 250, and temperature exactly 70, pass the absolute branch and fall
through to the statistical z-score check. -/
theorem C10_boundary_values (d : SensorData) (h : Option (List SensorData)) :
    ((d.voltage = VOLTAGE_MIN_SAFE ∨ d.voltage = VOLTAGE_MAX_SAFE) →
      check_voltage d h = voltageStatistical d h) ∧
    (d.temperature = TEMPERATURE_MAX_SAFE →
      check_temperature d h = temperatureStatistical d h) := by
  constructor
  · intro hv
    unfold check_voltage
    have hno : ¬ (d.voltage < VOLTAGE_MIN_SAFE ∨ d.voltage > VOLTAGE_MAX_SAFE) := by
      rcases hv with hv | hv <;> rw [hv] <;> norm_num [VOLTAGE_MIN_SAFE, VOLTAGE_MAX_SAFE]
    rw [if_neg hno]
  · intro ht
    unfold check_temperature
    have hno : ¬ (d.temperature > TEMPERATURE_MAX_SAFE) := by
      rw [ht]
      exact lt_irrefl _
    rw [if_neg hno]

/-- Witness for C10 at voltage 200 and temperature 70 with no history. -/
theorem C10_witness :
    check_voltage exW10 none = voltageStatistical exW10 none ∧
    check_temperature exW10 none = temperatureStatistical exW10 none :=
  ⟨(C10_boundary_values exW10 none).1 (Or.inl (by norm_num [exW10, VOLTAGE_MIN_SAFE])),
   (C10_boundary_values exW10 none).2 (by norm_num [exW10, TEMPERATURE_MAX_SAFE])⟩

end PowerGrid
